import Mathlib

/-!
Shallow embedding of the eigentask task/session scheduling core
(src/api/app/services/sessions.py, src/api/app/services/tasks.py,
src/api/app/schemas/task.py, src/api/app/schemas/session.py,
src/api/app/models/task.py, src/api/app/models/task_session.py,
src/api/app/routers/sessions.py).

Timestamps (Python datetime) are modelled as integers counting seconds;
`timedelta(minutes=m)` is `m * 60` seconds.  The relational store is a pair
of lists (tasks, sessions) with autoincrement counters.  Python exceptions
(`LookupError`, `ValueError`) become an `Except` error type carrying the
exception class and message; a service call either returns the updated store
together with its result, or an error (in which case the transaction is
rolled back, i.e. the caller keeps the previous store).
-/

namespace Eigentask

/-- Python datetime, modelled as seconds on an integer timeline. -/
abbrev DateTime := Int

/-- Opaque OIDC subject string identifying the owner. -/
abbrev UserSub := String

/-- models/task.py TaskStatus. -/
inductive TaskStatus
  | BACKLOG
  | PLANNED
  | COMPLETED
  | REMOVED
  deriving DecidableEq, Repr

/-- models/task_session.py TaskSessionStatus. -/
inductive TaskSessionStatus
  | INCOMPLETE
  | COMPLETED
  deriving DecidableEq, Repr

/-- models/task.py Task (persisted row; audit timestamps omitted). -/
structure Task where
  id : Nat
  title : String
  description : Option String
  status : TaskStatus
  due_at : Option DateTime
  planned_start_at : Option DateTime
  planned_end_at : Option DateTime
  planned_duration : Option Int
  created_by_sub : UserSub
  deriving DecidableEq, Repr

/-- models/task_session.py TaskSession (persisted row; audit timestamps omitted). -/
structure TaskSession where
  id : Nat
  task_id : Nat
  scheduled_start_at : DateTime
  scheduled_end_at : DateTime
  status : TaskSessionStatus
  deriving DecidableEq, Repr

/-- The relational store: tasks and task_sessions tables with autoincrement ids. -/
structure Store where
  tasks : List Task
  sessions : List TaskSession
  nextTaskId : Nat
  nextSessionId : Nat
  deriving DecidableEq, Repr

/-- The empty database. -/
def emptyStore : Store := { tasks := [], sessions := [], nextTaskId := 1, nextSessionId := 1 }

/-- Python exception classes raised by the services, with their message.
`lookupError` is translated by the API layer to NotFound; `valueError` covers
both validation errors and the overlap conflict (distinguished by message);
`multipleResultsFound` is sqlalchemy.exc.MultipleResultsFound, raised by
scalar_one_or_none() when the statement yields more than one row — the
routers catch only ValueError and LookupError, so it propagates uncaught. -/
inductive ServiceError
  | lookupError (msg : String)
  | valueError (msg : String)
  | multipleResultsFound
  deriving DecidableEq, Repr

/-- The spec's ConflictError is the ValueError raised at the two overlap-check
sites in services/sessions.py, recognisable by its message. -/
def ServiceError.isConflict : ServiceError → Prop
  | .valueError msg => msg = "session overlaps another scheduled session"
  | _ => False

/-- SQL join test used throughout services/sessions.py: the session's task
exists and is owned by the given subject. -/
def taskOwnedBy (store : Store) (taskId : Nat) (sub : UserSub) : Bool :=
  store.tasks.any fun t => t.id == taskId && t.created_by_sub == sub

/-- schemas/session.py SessionCreate (payload fields; `none` = field absent). -/
structure SessionCreate where
  scheduled_start_at : DateTime
  scheduled_end_at : Option DateTime
  duration_minutes : Option Int
  deriving DecidableEq, Repr

/-- schemas/session.py SessionUpdate; `none` = field not supplied
(pydantic model_dump with exclude_unset). -/
structure SessionUpdate where
  status : Option TaskSessionStatus
  scheduled_start_at : Option DateTime
  scheduled_end_at : Option DateTime
  deriving DecidableEq, Repr

/-- services/sessions.py _normalize_create_times: explicit end wins, else
start + duration minutes (duration must be positive), else ValueError. -/
def _normalize_create_times (payload : SessionCreate) :
    Except ServiceError (DateTime × DateTime) :=
  match payload.scheduled_end_at with
  | some e => .ok (payload.scheduled_start_at, e)
  | none =>
    match payload.duration_minutes with
    | some d =>
      if d > 0 then
        .ok (payload.scheduled_start_at, payload.scheduled_start_at + d * 60)
      else
        .error (.valueError "provide either scheduled_end_at or duration_minutes")
    | none => .error (.valueError "provide either scheduled_end_at or duration_minutes")

/-- The rows produced by the query inside _sessions_overlap: the user's
sessions (joined through task ownership, optionally excluding one session id)
with scheduled_start_at < end_at AND scheduled_end_at > start_at. The
statement has no LIMIT, so every matching row is returned. -/
def overlapRows (store : Store) (created_by_sub : UserSub)
    (start_at end_at : DateTime) (exclude_session_id : Option Nat) :
    List TaskSession :=
  store.sessions.filter fun s =>
    taskOwnedBy store s.task_id created_by_sub
      && decide (s.scheduled_start_at < end_at)
      && decide (s.scheduled_end_at > start_at)
      && match exclude_session_id with
         | none => true
         | some ex => s.id != ex

/-- services/sessions.py _sessions_overlap: execute the overlap query and
apply result.scalar_one_or_none(): no matching row gives False, exactly one
gives True, and two or more raise sqlalchemy MultipleResultsFound (which the
routers do not catch). -/
def _sessions_overlap (store : Store) (created_by_sub : UserSub)
    (start_at end_at : DateTime) (exclude_session_id : Option Nat) :
    Except ServiceError Bool :=
  match overlapRows store created_by_sub start_at end_at exclude_session_id with
  | [] => .ok false
  | [_] => .ok true
  | _ :: _ :: _ => .error .multipleResultsFound

/-- services/sessions.py: count of existing sessions for a task
(the first-session check in create_session_for_task). -/
def countSessionsForTask (store : Store) (taskId : Nat) : Nat :=
  (store.sessions.filter fun s => s.task_id == taskId).length

/-- The TaskSession row inserted by create_session_for_task: next autoincrement
id, the target task, the normalized times, status INCOMPLETE. -/
def newSessionRow (store : Store) (task_id : Nat) (start_at end_at : DateTime) :
    TaskSession :=
  { id := store.nextSessionId
    task_id := task_id
    scheduled_start_at := start_at
    scheduled_end_at := end_at
    status := .INCOMPLETE }

/-- services/sessions.py create_session_for_task: lookup task by primary key,
check ownership, normalize times, overlap-check (no exclusion), count existing
sessions before insert, insert with status INCOMPLETE, set task to PLANNED if
it had no sessions. -/
def create_session_for_task (store : Store) (task_id : Nat)
    (created_by_sub : UserSub) (payload : SessionCreate) :
    Except ServiceError (Store × TaskSession) :=
  match store.tasks.find? (fun t => t.id == task_id) with
  | none => .error (.lookupError "task not found")
  | some task =>
    if task.created_by_sub ≠ created_by_sub then
      .error (.lookupError "task not found")
    else
      match _normalize_create_times payload with
      | .error e => .error e
      | .ok (start_at, end_at) =>
        match _sessions_overlap store created_by_sub start_at end_at none with
        | .error e => .error e
        | .ok true =>
          .error (.valueError "session overlaps another scheduled session")
        | .ok false =>
          .ok ({ store with
                  tasks :=
                    if countSessionsForTask store task_id == 0 then
                      store.tasks.map fun t =>
                        if t.id == task_id then { t with status := .PLANNED } else t
                    else store.tasks
                  sessions := store.sessions ++ [newSessionRow store task_id start_at end_at]
                  nextSessionId := store.nextSessionId + 1 },
               newSessionRow store task_id start_at end_at)

/-- services/sessions.py get_session_for_user: fetch one session by
(task_id, session_id) joined through task ownership. -/
def get_session_for_user (store : Store) (task_id session_id : Nat)
    (created_by_sub : UserSub) : Option TaskSession :=
  store.sessions.find? fun s =>
    s.id == session_id && s.task_id == task_id
      && taskOwnedBy store s.task_id created_by_sub

/-- services/sessions.py update_session_for_user, merged start:
`data.get("scheduled_start_at", task_session.scheduled_start_at)`. -/
def mergedStart (task_session : TaskSession) (payload : SessionUpdate) : DateTime :=
  payload.scheduled_start_at.getD task_session.scheduled_start_at

/-- services/sessions.py update_session_for_user, merged end:
`data.get("scheduled_end_at", task_session.scheduled_end_at)`. -/
def mergedEnd (task_session : TaskSession) (payload : SessionUpdate) : DateTime :=
  payload.scheduled_end_at.getD task_session.scheduled_end_at

/-- services/sessions.py update_session_for_user:
`"scheduled_start_at" in data or "scheduled_end_at" in data`. -/
def timesSupplied (payload : SessionUpdate) : Bool :=
  payload.scheduled_start_at.isSome || payload.scheduled_end_at.isSome

/-- The in-place field writes of update_session_for_user once its checks have
passed: write the merged times when a time field was supplied, then write the
status when it was supplied. -/
def applySessionUpdate (task_session : TaskSession) (payload : SessionUpdate) :
    TaskSession :=
  let withTimes :=
    if timesSupplied payload then
      { task_session with
        scheduled_start_at := mergedStart task_session payload
        scheduled_end_at := mergedEnd task_session payload }
    else task_session
  match payload.status with
  | some st => { withTimes with status := st }
  | none => withTimes

/-- services/sessions.py update_session_for_user: when a time field is
supplied, merge the pair, reject end ≤ start, then overlap-check excluding
this session's id (True rejects as a conflict, two or more matching rows
raise MultipleResultsFound out of the checker); finally write times and/or
status. -/
def update_session_for_user (store : Store) (task_session : TaskSession)
    (payload : SessionUpdate) (created_by_sub : UserSub) :
    Except ServiceError (Store × TaskSession) :=
  if timesSupplied payload then
    if mergedEnd task_session payload ≤ mergedStart task_session payload then
      .error (.valueError "scheduled_end_at must be after scheduled_start_at")
    else
      match _sessions_overlap store created_by_sub (mergedStart task_session payload)
          (mergedEnd task_session payload) (some task_session.id) with
      | .error e => .error e
      | .ok true =>
        .error (.valueError "session overlaps another scheduled session")
      | .ok false =>
        .ok ({ store with
                sessions := store.sessions.map fun s =>
                  if s.id == task_session.id then applySessionUpdate task_session payload
                  else s },
             applySessionUpdate task_session payload)
  else
    .ok ({ store with
            sessions := store.sessions.map fun s =>
              if s.id == task_session.id then applySessionUpdate task_session payload
              else s },
         applySessionUpdate task_session payload)

/-- services/sessions.py delete_session_for_user: hard delete by id. -/
def delete_session_for_user (store : Store) (task_session : TaskSession) : Store :=
  { store with sessions := store.sessions.filter fun s => s.id != task_session.id }

/-- The joined, filtered rows of list_sessions_in_range before ordering:
sessions joined with their task, keeping the owner's rows with
scheduled_start_at < to_at and scheduled_end_at > from_at. -/
def sessionRangeRows (store : Store) (created_by_sub : UserSub)
    (from_at to_at : DateTime) : List (TaskSession × String) :=
  store.sessions.filterMap fun s =>
    match store.tasks.find? (fun t => t.id == s.task_id) with
    | some t =>
      if t.created_by_sub = created_by_sub
          ∧ s.scheduled_start_at < to_at ∧ s.scheduled_end_at > from_at then
        some (s, t.title)
      else none
    | none => none

/-- services/sessions.py list_sessions_in_range: the joined rows ordered by
scheduled_start_at, as (session, task title) pairs. -/
def list_sessions_in_range (store : Store) (created_by_sub : UserSub)
    (from_at to_at : DateTime) : List (TaskSession × String) :=
  (sessionRangeRows store created_by_sub from_at to_at).mergeSort
    fun a b => a.1.scheduled_start_at ≤ b.1.scheduled_start_at

/-- Python `int(x)` applied to the exact quotient d / 60: truncation toward
zero, written so as not to depend on the rounding convention of integer
division on negatives. -/
def pyTruncDiv60 (d : Int) : Int :=
  if d < 0 then -((-d) / 60) else d / 60

/-- Modelled from the spec: Python `round(x)` applied to the exact quotient
d / 60 — round half to even (banker's rounding), as the spec's
`minutes = round((planned_end_at - planned_start_at) / 1 minute)` prescribes.
This definition follows the spec's words; the source uses `int(...)`
(see pyTruncDiv60), and the two are compared in the C3 theorems. -/
def specRoundDiv60 (d : Int) : Int :=
  let q := Int.fdiv d 60
  let r := d - 60 * q
  if 2 * r < 60 then q
  else if 2 * r > 60 then q + 1
  else if q % 2 = 0 then q else q + 1

/-- services/tasks.py _coerce_planned_duration: when both planned timestamps
are present, minutes = int((planned_end_at - planned_start_at) / 1 minute);
an absent planned_duration becomes minutes, a differing one is a ValueError. -/
def _coerce_planned_duration (planned_start_at planned_end_at : Option DateTime)
    (planned_duration : Option Int) : Except ServiceError (Option Int) :=
  match planned_start_at, planned_end_at with
  | some s, some e =>
    match planned_duration with
    | none => .ok (some (pyTruncDiv60 (e - s)))
    | some d =>
      if d ≠ pyTruncDiv60 (e - s) then
        .error (.valueError
          "planned_duration must equal the difference between planned_start_at and planned_end_at")
      else .ok (some d)
  | _, _ => .ok planned_duration

/-- schemas/task.py TaskCreate after pydantic validation: title and due_at are
required fields, status defaults to BACKLOG. -/
structure TaskCreate where
  title : String
  description : Option String
  status : TaskStatus
  due_at : DateTime
  planned_start_at : Option DateTime
  planned_end_at : Option DateTime
  planned_duration : Option Int
  deriving DecidableEq, Repr

/-- A raw JSON body for task creation before pydantic validation; `none` means
the field is absent from the body. -/
structure TaskCreateRaw where
  title : Option String
  description : Option String
  status : Option TaskStatus
  due_at : Option DateTime
  planned_start_at : Option DateTime
  planned_end_at : Option DateTime
  planned_duration : Option Int
  deriving DecidableEq, Repr

/-- Python str.strip() as the title validator uses it: drop leading and
trailing whitespace. (String.trim does not reduce in proofs, so the strip is
modelled directly on the character list.) -/
def pyStrip (s : String) : String :=
  String.mk (((s.data.dropWhile Char.isWhitespace).reverse.dropWhile
    Char.isWhitespace).reverse)

/-- schemas/task.py TaskCreate validation: pydantic collects field errors
(title required and non-blank after strip, due_at required, planned_duration
positive when provided), then the model validator rejects
planned_end_at < planned_start_at. -/
def validateTaskCreate (raw : TaskCreateRaw) : Except (List String) TaskCreate :=
  let fieldErrors :=
    (match raw.title with
     | none => ["title: Field required"]
     | some t => if pyStrip t = "" then ["title: title cannot be blank"] else [])
    ++ (match raw.due_at with
        | none => ["due_at: Field required"]
        | some _ => [])
    ++ (match raw.planned_duration with
        | some d =>
          if d ≤ 0 then ["planned_duration: planned_duration must be positive when provided"]
          else []
        | none => [])
  if fieldErrors ≠ [] then .error fieldErrors
  else
    match raw.title, raw.due_at with
    | some t, some due =>
      let p : TaskCreate :=
        { title := pyStrip t
          description := raw.description
          status := raw.status.getD .BACKLOG
          due_at := due
          planned_start_at := raw.planned_start_at
          planned_end_at := raw.planned_end_at
          planned_duration := raw.planned_duration }
      match p.planned_start_at, p.planned_end_at with
      | some s, some e =>
        if e < s then .error ["planned_end_at must be after planned_start_at"]
        else .ok p
      | _, _ => .ok p
    | _, _ => .error ["unreachable: required fields checked above"]

/-- schemas/task.py TaskUpdate; `none` = field not supplied
(pydantic model_dump with exclude_unset). -/
structure TaskUpdate where
  title : Option String
  description : Option String
  status : Option TaskStatus
  due_at : Option DateTime
  planned_start_at : Option DateTime
  planned_end_at : Option DateTime
  planned_duration : Option Int
  deriving DecidableEq, Repr

/-- services/tasks.py create_task_for_user: coerce the planned duration, then
insert the task for the owner (status defaulting handled by the schema). -/
def create_task_for_user (store : Store) (created_by_sub : UserSub)
    (payload : TaskCreate) : Except ServiceError (Store × Task) :=
  match _coerce_planned_duration payload.planned_start_at payload.planned_end_at
      payload.planned_duration with
  | .error e => .error e
  | .ok duration =>
    let task : Task :=
      { id := store.nextTaskId
        title := payload.title
        description := payload.description
        status := payload.status
        due_at := some payload.due_at
        planned_start_at := payload.planned_start_at
        planned_end_at := payload.planned_end_at
        planned_duration := duration
        created_by_sub := created_by_sub }
    .ok ({ store with
            tasks := store.tasks ++ [task]
            nextTaskId := store.nextTaskId + 1 },
         task)

/-- services/tasks.py get_task_for_user: fetch one task by (id, owner). -/
def get_task_for_user (store : Store) (task_id : Nat) (created_by_sub : UserSub) :
    Option Task :=
  store.tasks.find? fun t => t.id == task_id && t.created_by_sub == created_by_sub

/-- The field merge in services/tasks.py update_task_for_user: each simple
field present in the payload (exclude_unset) overwrites the stored one. -/
def mergeTaskUpdate (task : Task) (payload : TaskUpdate) : Task :=
  { task with
    title := payload.title.getD task.title
    description :=
      match payload.description with
      | some d => some d
      | none => task.description
    status := payload.status.getD task.status
    due_at :=
      match payload.due_at with
      | some d => some d
      | none => task.due_at
    planned_start_at :=
      match payload.planned_start_at with
      | some d => some d
      | none => task.planned_start_at
    planned_end_at :=
      match payload.planned_end_at with
      | some d => some d
      | none => task.planned_end_at
    planned_duration :=
      match payload.planned_duration with
      | some d => some d
      | none => task.planned_duration }

/-- services/tasks.py update_task_for_user: apply the supplied simple fields to
the task, then re-coerce planned_duration from the merged planned fields
(raising rolls back the whole update). -/
def update_task_for_user (store : Store) (task : Task) (payload : TaskUpdate) :
    Except ServiceError (Store × Task) :=
  match _coerce_planned_duration (mergeTaskUpdate task payload).planned_start_at
      (mergeTaskUpdate task payload).planned_end_at
      (mergeTaskUpdate task payload).planned_duration with
  | .error e => .error e
  | .ok duration =>
    .ok ({ store with
            tasks := store.tasks.map fun t =>
              if t.id == task.id
              then { mergeTaskUpdate task payload with planned_duration := duration }
              else t },
         { mergeTaskUpdate task payload with planned_duration := duration })

/-- services/tasks.py delete_task_for_user: delete the task; the task_sessions
foreign key has ondelete CASCADE, so the task's sessions go with it. -/
def delete_task_for_user (store : Store) (task : Task) : Store :=
  { store with
    tasks := store.tasks.filter fun t => t.id != task.id
    sessions := store.sessions.filter fun s => s.task_id != task.id }

/-- Ownership as a proposition over a tasks table: some row carries this id
and owner. -/
def ownerIsIn (tasks : List Task) (taskId : Nat) (sub : UserSub) : Prop :=
  ∃ t ∈ tasks, t.id = taskId ∧ t.created_by_sub = sub

/-- Ownership as a proposition: some task row of the store carries this id and
owner. -/
def ownerIs (store : Store) (taskId : Nat) (sub : UserSub) : Prop :=
  ownerIsIn store.tasks taskId sub

/-- The spec's no-overlap invariant: no two distinct sessions of one owner
strictly overlap. -/
def noOwnerOverlap (store : Store) : Prop :=
  ∀ s1 ∈ store.sessions, ∀ s2 ∈ store.sessions,
    s1.id ≠ s2.id →
    ∀ sub : UserSub, ownerIs store s1.task_id sub → ownerIs store s2.task_id sub →
    ¬ (s1.scheduled_start_at < s2.scheduled_end_at
        ∧ s1.scheduled_end_at > s2.scheduled_start_at)

/-- Structural store invariant maintained by every operation: distinct,
bounded autoincrement ids, the sessions' foreign key into tasks, and the
no-overlap property. -/
structure StoreInv (store : Store) : Prop where
  taskIdsBound : ∀ t ∈ store.tasks, t.id < store.nextTaskId
  taskIdsNodup : store.tasks.Pairwise fun a b => a.id ≠ b.id
  sessionIdsBound : ∀ s ∈ store.sessions, s.id < store.nextSessionId
  sessionIdsNodup : store.sessions.Pairwise fun a b => a.id ≠ b.id
  foreignKey : ∀ s ∈ store.sessions, ∃ t ∈ store.tasks, t.id = s.task_id
  noOverlap : noOwnerOverlap store

/-- Store states reachable from the empty database through the service
operations as the routers invoke them (task CRUD, session create/update/delete;
updates and deletes act on an entity first fetched through the owner filter). -/
inductive Reachable : Store → Prop
  | empty : Reachable emptyStore
  | createTask {st st' : Store} {sub : UserSub} {p : TaskCreate} {t : Task} :
      Reachable st → create_task_for_user st sub p = .ok (st', t) → Reachable st'
  | updateTask {st st' : Store} {tid : Nat} {sub : UserSub} {task t' : Task}
      {p : TaskUpdate} :
      Reachable st → get_task_for_user st tid sub = some task →
      update_task_for_user st task p = .ok (st', t') → Reachable st'
  | deleteTask {st : Store} {tid : Nat} {sub : UserSub} {task : Task} :
      Reachable st → get_task_for_user st tid sub = some task →
      Reachable (delete_task_for_user st task)
  | createSession {st st' : Store} {tid : Nat} {sub : UserSub} {p : SessionCreate}
      {s : TaskSession} :
      Reachable st → create_session_for_task st tid sub p = .ok (st', s) →
      Reachable st'
  | updateSession {st st' : Store} {tid sid : Nat} {sub : UserSub}
      {ts s' : TaskSession} {p : SessionUpdate} :
      Reachable st → get_session_for_user st tid sid sub = some ts →
      update_session_for_user st ts p sub = .ok (st', s') → Reachable st'
  | deleteSession {st : Store} {tid sid : Nat} {sub : UserSub} {ts : TaskSession} :
      Reachable st → get_session_for_user st tid sid sub = some ts →
      Reachable (delete_session_for_user st ts)

/-! Helper lemmas. -/

/-- In a list whose elements have pairwise-distinct keys, the key determines
the element. -/
theorem eq_of_pairwise_key {α κ : Type} (key : α → κ) {l : List α}
    (h : l.Pairwise fun a b => key a ≠ key b) :
    ∀ {x y : α}, x ∈ l → y ∈ l → key x = key y → x = y := by
  induction l with
  | nil => intro x y hx _ _; cases hx
  | cons a l ih =>
    rw [List.pairwise_cons] at h
    intro x y hx hy hk
    rcases List.mem_cons.mp hx with hx | hx <;> rcases List.mem_cons.mp hy with hy | hy
    · exact hx.trans hy.symm
    · exact absurd (hx ▸ hk) (h.1 y hy)
    · exact absurd (hy ▸ hk.symm) (h.1 x hx)
    · exact ih h.2 hx hy hk

/-- The boolean ownership join agrees with the propositional one. -/
theorem taskOwnedBy_iff (store : Store) (taskId : Nat) (sub : UserSub) :
    taskOwnedBy store taskId sub = true ↔ ownerIs store taskId sub := by
  simp [taskOwnedBy, ownerIs, ownerIsIn, List.any_eq_true, Bool.and_eq_true, beq_iff_eq]

/-- Characterisation of the overlap query's rows: a session is returned
exactly when it is owned (via its task) by the user, is not the excluded one,
and strictly overlaps the candidate interval. -/
theorem overlapRows_mem_iff (store : Store) (sub : UserSub)
    (start_at end_at : DateTime) (excl : Option Nat) (s : TaskSession) :
    s ∈ overlapRows store sub start_at end_at excl ↔
      (s ∈ store.sessions ∧ (∀ ex, excl = some ex → s.id ≠ ex)
        ∧ ownerIs store s.task_id sub
        ∧ s.scheduled_start_at < end_at ∧ s.scheduled_end_at > start_at) := by
  simp only [overlapRows, List.mem_filter, Bool.and_eq_true, decide_eq_true_eq,
    taskOwnedBy_iff]
  constructor
  · rintro ⟨hs, ⟨⟨⟨hown, hlt⟩, hgt⟩, hex⟩⟩
    refine ⟨hs, ?_, hown, hlt, hgt⟩
    intro ex he
    subst he
    simpa [bne_iff_ne] using hex
  · rintro ⟨hs, hex, hown, hlt, hgt⟩
    refine ⟨hs, ⟨⟨⟨hown, hlt⟩, hgt⟩, ?_⟩⟩
    cases excl with
    | none => rfl
    | some ex => simpa [bne_iff_ne] using hex ex rfl

/-- A checker outcome of ok false means the query matched no row at all. -/
theorem overlapRows_nil_of_ok_false {store : Store} {sub : UserSub}
    {start_at end_at : DateTime} {excl : Option Nat}
    (h : _sessions_overlap store sub start_at end_at excl = .ok false) :
    overlapRows store sub start_at end_at excl = [] := by
  unfold _sessions_overlap at h
  rcases hr : overlapRows store sub start_at end_at excl with _ | ⟨a, _ | ⟨b, l⟩⟩
  · rfl
  · rw [hr] at h
    simp at h
  · rw [hr] at h
    simp at h

/-- When the overlap check comes back ok false, no other session of the owner
strictly overlaps the candidate interval. -/
theorem not_overlap_of_check_false {store : Store} {sub : UserSub}
    {start_at end_at : DateTime} {excl : Option Nat}
    (h : _sessions_overlap store sub start_at end_at excl = .ok false) :
    ∀ s ∈ store.sessions, ownerIs store s.task_id sub →
      (∀ ex, excl = some ex → s.id ≠ ex) →
      ¬ (s.scheduled_start_at < end_at ∧ s.scheduled_end_at > start_at) := by
  intro s hs hown hex hcontra
  have hmem : s ∈ overlapRows store sub start_at end_at excl :=
    (overlapRows_mem_iff store sub start_at end_at excl s).mpr
      ⟨hs, hex, hown, hcontra.1, hcontra.2⟩
  rw [overlapRows_nil_of_ok_false h] at hmem
  cases hmem

/-- Ownership only looks at the tasks table; a rewrite of the tasks list that
preserves each row's id and owner preserves ownership. -/
theorem ownerIsIn_map_iff {tasks : List Task} {f : Task → Task}
    (hf : ∀ t ∈ tasks, (f t).id = t.id ∧ (f t).created_by_sub = t.created_by_sub)
    (taskId : Nat) (sub : UserSub) :
    ownerIsIn (tasks.map f) taskId sub ↔ ownerIsIn tasks taskId sub := by
  unfold ownerIsIn
  constructor
  · rintro ⟨t', ht', hid, hsub⟩
    rcases List.mem_map.mp ht' with ⟨t, ht, rfl⟩
    exact ⟨t, ht, (hf t ht).1 ▸ hid, (hf t ht).2 ▸ hsub⟩
  · rintro ⟨t, ht, hid, hsub⟩
    exact ⟨f t, List.mem_map_of_mem f ht, (hf t ht).1.symm ▸ hid, (hf t ht).2.symm ▸ hsub⟩

/-- Members of the map that rewrites the row with the given id: either the
replacement row, or an untouched row with a different id. -/
theorem mem_map_replace {sessions : List TaskSession} {ts updated : TaskSession}
    (hnodup : sessions.Pairwise fun a b => a.id ≠ b.id) (hts : ts ∈ sessions)
    {s' : TaskSession}
    (h : s' ∈ sessions.map fun s => if s.id == ts.id then updated else s) :
    s' = updated ∨ (s' ∈ sessions ∧ s'.id ≠ ts.id) := by
  rcases List.mem_map.mp h with ⟨s0, hs0, hfs⟩
  by_cases hid : s0.id = ts.id
  · left
    have : s0 = ts := eq_of_pairwise_key (fun s => s.id) hnodup hs0 hts hid
    simp [hid] at hfs
    exact hfs.symm
  · right
    simp [hid] at hfs
    exact ⟨hfs ▸ hs0, hfs ▸ hid⟩

/-- The empty database satisfies the invariant. -/
theorem inv_empty : StoreInv emptyStore := by
  constructor <;> simp [emptyStore, noOwnerOverlap]

/-- Hard-deleting a session preserves the store invariant. -/
theorem inv_deleteSession {st : Store} (hinv : StoreInv st) (ts : TaskSession) :
    StoreInv (delete_session_for_user st ts) := by
  have hsub : ∀ s ∈ (delete_session_for_user st ts).sessions, s ∈ st.sessions := by
    intro s hs
    exact List.mem_of_mem_filter hs
  constructor
  · exact hinv.taskIdsBound
  · exact hinv.taskIdsNodup
  · intro s hs; exact hinv.sessionIdsBound s (hsub s hs)
  · exact hinv.sessionIdsNodup.sublist (List.filter_sublist _)
  · intro s hs; exact hinv.foreignKey s (hsub s hs)
  · intro s1 h1 s2 h2 hne sub o1 o2
    exact hinv.noOverlap s1 (hsub s1 h1) s2 (hsub s2 h2) hne sub o1 o2

/-- Deleting a task (with its cascade onto sessions) preserves the invariant. -/
theorem inv_deleteTask {st : Store} (hinv : StoreInv st) (task : Task) :
    StoreInv (delete_task_for_user st task) := by
  have htsub : ∀ t ∈ (delete_task_for_user st task).tasks, t ∈ st.tasks := by
    intro t ht; exact List.mem_of_mem_filter ht
  have hssub : ∀ s ∈ (delete_task_for_user st task).sessions, s ∈ st.sessions := by
    intro s hs; exact List.mem_of_mem_filter hs
  have howner : ∀ taskId sub, ownerIs (delete_task_for_user st task) taskId sub →
      ownerIs st taskId sub := by
    rintro taskId sub ⟨t, ht, hid, hsubt⟩
    exact ⟨t, htsub t ht, hid, hsubt⟩
  constructor
  · intro t ht; exact hinv.taskIdsBound t (htsub t ht)
  · exact hinv.taskIdsNodup.sublist (List.filter_sublist _)
  · intro s hs; exact hinv.sessionIdsBound s (hssub s hs)
  · exact hinv.sessionIdsNodup.sublist (List.filter_sublist _)
  · intro s hs
    have hmem := List.mem_filter.mp hs
    have hne : s.task_id ≠ task.id := by simpa [bne_iff_ne] using hmem.2
    rcases hinv.foreignKey s hmem.1 with ⟨t, ht, hid⟩
    refine ⟨t, List.mem_filter.mpr ⟨ht, ?_⟩, hid⟩
    simpa [bne_iff_ne] using hid ▸ hne
  · intro s1 h1 s2 h2 hne sub o1 o2
    exact hinv.noOverlap s1 (hssub s1 h1) s2 (hssub s2 h2) hne sub
      (howner _ _ o1) (howner _ _ o2)

/-- Appending a task with a fresh id cannot grant ownership of an existing
session's task: the new id is above every task id a session can reference. -/
theorem ownerIs_append_fresh {st : Store} (hinv : StoreInv st) {st' : Store}
    {newt : Task} (htasks : st'.tasks = st.tasks ++ [newt])
    (hfresh : newt.id = st.nextTaskId) {s : TaskSession} (hs : s ∈ st.sessions)
    {sub' : UserSub} (h : ownerIs st' s.task_id sub') : ownerIs st s.task_id sub' := by
  rcases h with ⟨t0, ht0, hid, hsubt⟩
  rw [htasks] at ht0
  rcases List.mem_append.mp ht0 with h' | h'
  · exact ⟨t0, h', hid, hsubt⟩
  · exfalso
    rcases hinv.foreignKey s hs with ⟨t1, ht1, hid1⟩
    have hbound := hinv.taskIdsBound t1 ht1
    rcases List.mem_singleton.mp h' with rfl
    omega

/-- Creating a task preserves the store invariant. -/
theorem inv_createTask {st st' : Store} {sub : UserSub} {p : TaskCreate} {t : Task}
    (hinv : StoreInv st) (hok : create_task_for_user st sub p = .ok (st', t)) :
    StoreInv st' := by
  unfold create_task_for_user at hok
  cases hc : _coerce_planned_duration p.planned_start_at p.planned_end_at
      p.planned_duration with
  | error e => rw [hc] at hok; cases hok
  | ok duration =>
    rw [hc] at hok
    cases hok
    constructor
    · intro t0 ht0
      rcases List.mem_append.mp ht0 with h | h
      · exact Nat.lt_succ_of_lt (hinv.taskIdsBound t0 h)
      · have : t0.id = st.nextTaskId := by
          rcases List.mem_singleton.mp h with rfl; rfl
        simp [this]
    · refine List.pairwise_append.mpr ⟨hinv.taskIdsNodup, List.pairwise_singleton _ _, ?_⟩
      intro a ha b hb
      have hb' : b.id = st.nextTaskId := by
        rcases List.mem_singleton.mp hb with rfl; rfl
      exact hb' ▸ Nat.ne_of_lt (hinv.taskIdsBound a ha)
    · exact hinv.sessionIdsBound
    · exact hinv.sessionIdsNodup
    · intro s hs
      rcases hinv.foreignKey s hs with ⟨t0, ht0, hid⟩
      exact ⟨t0, List.mem_append_left _ ht0, hid⟩
    · intro s1 h1 s2 h2 hne sub' o1 o2
      exact hinv.noOverlap s1 h1 s2 h2 hne sub'
        (ownerIs_append_fresh hinv rfl rfl h1 o1)
        (ownerIs_append_fresh hinv rfl rfl h2 o2)

/-- Updating a task preserves the store invariant. -/
theorem inv_updateTask {st st' : Store} {tid : Nat} {sub : UserSub} {task t' : Task}
    {p : TaskUpdate}
    (hinv : StoreInv st) (hget : get_task_for_user st tid sub = some task)
    (hok : update_task_for_user st task p = .ok (st', t')) : StoreInv st' := by
  have htask : task ∈ st.tasks := List.mem_of_find?_eq_some hget
  unfold update_task_for_user at hok
  cases hc : _coerce_planned_duration (mergeTaskUpdate task p).planned_start_at
      (mergeTaskUpdate task p).planned_end_at
      (mergeTaskUpdate task p).planned_duration with
  | error e => rw [hc] at hok; cases hok
  | ok duration =>
    rw [hc] at hok
    cases hok
    have hf : ∀ t0 ∈ st.tasks,
        ((if t0.id == task.id
          then { mergeTaskUpdate task p with planned_duration := duration }
          else t0).id = t0.id
          ∧ (if t0.id == task.id
             then { mergeTaskUpdate task p with planned_duration := duration }
             else t0).created_by_sub = t0.created_by_sub) := by
      intro t0 ht0
      by_cases h : t0.id = task.id
      · have heq : t0 = task :=
          eq_of_pairwise_key (fun x => x.id) hinv.taskIdsNodup ht0 htask h
        subst heq
        simp [mergeTaskUpdate]
      · simp [h]
    constructor
    · intro t0 ht0
      rcases List.mem_map.mp ht0 with ⟨t1, ht1, rfl⟩
      exact lt_of_eq_of_lt (hf t1 ht1).1 (hinv.taskIdsBound t1 ht1)
    · rw [List.pairwise_map]
      refine hinv.taskIdsNodup.imp_of_mem ?_
      intro a b ha hb hne
      rw [(hf a ha).1, (hf b hb).1]
      exact hne
    · exact hinv.sessionIdsBound
    · exact hinv.sessionIdsNodup
    · intro s hs
      rcases hinv.foreignKey s hs with ⟨t0, ht0, hid⟩
      exact ⟨_, List.mem_map_of_mem _ ht0, (hf t0 ht0).1.trans hid⟩
    · intro s1 h1 s2 h2 hne sub' o1 o2
      exact hinv.noOverlap s1 h1 s2 h2 hne sub'
        ((ownerIsIn_map_iff hf _ _).mp o1) ((ownerIsIn_map_iff hf _ _).mp o2)

/-- The inserted row's fields. -/
theorem newSessionRow_id (store : Store) (tid : Nat) (a b : DateTime) :
    (newSessionRow store tid a b).id = store.nextSessionId := rfl

/-- The inserted row references the target task. -/
theorem newSessionRow_task_id (store : Store) (tid : Nat) (a b : DateTime) :
    (newSessionRow store tid a b).task_id = tid := rfl

/-- applySessionUpdate never touches the session id. -/
theorem applySessionUpdate_id (ts : TaskSession) (p : SessionUpdate) :
    (applySessionUpdate ts p).id = ts.id := by
  unfold applySessionUpdate
  cases p.status <;> cases h : timesSupplied p <;> simp [h]

/-- applySessionUpdate never touches the owning task id. -/
theorem applySessionUpdate_task_id (ts : TaskSession) (p : SessionUpdate) :
    (applySessionUpdate ts p).task_id = ts.task_id := by
  unfold applySessionUpdate
  cases p.status <;> cases h : timesSupplied p <;> simp [h]

/-- When a time field is supplied, the written times are the merged pair. -/
theorem applySessionUpdate_times_supplied {ts : TaskSession} {p : SessionUpdate}
    (h : timesSupplied p = true) :
    (applySessionUpdate ts p).scheduled_start_at = mergedStart ts p
      ∧ (applySessionUpdate ts p).scheduled_end_at = mergedEnd ts p := by
  unfold applySessionUpdate
  cases p.status <;> simp [h]

/-- When no time field is supplied, the times are untouched. -/
theorem applySessionUpdate_times_not_supplied {ts : TaskSession} {p : SessionUpdate}
    (h : timesSupplied p = false) :
    (applySessionUpdate ts p).scheduled_start_at = ts.scheduled_start_at
      ∧ (applySessionUpdate ts p).scheduled_end_at = ts.scheduled_end_at := by
  unfold applySessionUpdate
  cases p.status <;> simp [h]

/-- What a successful owner-scoped session fetch guarantees. -/
theorem get_session_for_user_mem {st : Store} {tid sid : Nat} {sub : UserSub}
    {ts : TaskSession} (h : get_session_for_user st tid sid sub = some ts) :
    ts ∈ st.sessions ∧ ts.id = sid ∧ ts.task_id = tid ∧ ownerIs st ts.task_id sub := by
  have hmem := List.mem_of_find?_eq_some h
  have hp := List.find?_some h
  simp only [Bool.and_eq_true, beq_iff_eq] at hp
  exact ⟨hmem, hp.1.1, hp.1.2, (taskOwnedBy_iff st ts.task_id sub).mp hp.2⟩

/-- Core of the create-session invariant: a row whose interval passed the
overlap check (no exclusion) cannot overlap any session of its owner, in
either orientation, and the appended list stays pairwise non-overlapping. -/
theorem noOverlap_insert {st : Store} (hinv : StoreInv st) {task : Task}
    (htask : task ∈ st.tasks) {tid : Nat} (htid : task.id = tid) {sub : UserSub}
    (hsub : task.created_by_sub = sub) {start_at end_at : DateTime}
    (hovf : _sessions_overlap st sub start_at end_at none = .ok false)
    {s1 s2 : TaskSession}
    (h1 : s1 ∈ st.sessions ++ [newSessionRow st tid start_at end_at])
    (h2 : s2 ∈ st.sessions ++ [newSessionRow st tid start_at end_at])
    (hne : s1.id ≠ s2.id) {sub' : UserSub}
    (o1 : ownerIsIn st.tasks s1.task_id sub') (o2 : ownerIsIn st.tasks s2.task_id sub') :
    ¬ (s1.scheduled_start_at < s2.scheduled_end_at
        ∧ s1.scheduled_end_at > s2.scheduled_start_at) := by
  have hsubEq : ∀ {s : TaskSession}, s = newSessionRow st tid start_at end_at →
      ownerIsIn st.tasks s.task_id sub' → sub' = sub := by
    rintro s rfl ⟨t0, ht0, hid0, hs0⟩
    have ht0task : t0 = task :=
      eq_of_pairwise_key (fun x => x.id) hinv.taskIdsNodup ht0 htask
        (hid0.trans htid.symm)
    subst ht0task
    exact hs0.symm.trans hsub
  rcases List.mem_append.mp h1 with h1' | h1' <;> rcases List.mem_append.mp h2 with h2' | h2'
  · exact hinv.noOverlap s1 h1' s2 h2' hne sub' o1 o2
  · have hq := hsubEq (List.mem_singleton.mp h2') o2
    subst hq
    rcases List.mem_singleton.mp h2' with rfl
    exact not_overlap_of_check_false hovf s1 h1' o1 (fun ex hex => by cases hex)
  · have hq := hsubEq (List.mem_singleton.mp h1') o1
    subst hq
    rcases List.mem_singleton.mp h1' with rfl
    intro hcon
    exact not_overlap_of_check_false hovf s2 h2' o2 (fun ex hex => by cases hex)
      ⟨hcon.2, hcon.1⟩
  · rcases List.mem_singleton.mp h1' with rfl
    rcases List.mem_singleton.mp h2' with rfl
    exact absurd rfl hne

/-- Creating a session preserves the store invariant. -/
theorem inv_createSession {st st' : Store} {tid : Nat} {sub : UserSub}
    {p : SessionCreate} {s : TaskSession}
    (hinv : StoreInv st) (hok : create_session_for_task st tid sub p = .ok (st', s)) :
    StoreInv st' := by
  unfold create_session_for_task at hok
  cases hfind : st.tasks.find? (fun t => t.id == tid) with
  | none => rw [hfind] at hok; cases hok
  | some task =>
    rw [hfind] at hok
    dsimp only [] at hok
    have htask : task ∈ st.tasks := List.mem_of_find?_eq_some hfind
    have htid : task.id = tid := by
      have hp := List.find?_some hfind
      simpa [beq_iff_eq] using hp
    by_cases hownb : task.created_by_sub ≠ sub
    · rw [if_pos hownb] at hok; cases hok
    · rw [if_neg hownb] at hok
      push_neg at hownb
      cases hnorm : _normalize_create_times p with
      | error e => rw [hnorm] at hok; cases hok
      | ok se =>
        obtain ⟨start_at, end_at⟩ := se
        rw [hnorm] at hok
        dsimp only [] at hok
        cases hovf : _sessions_overlap st sub start_at end_at none with
        | error e => rw [hovf] at hok; cases hok
        | ok b =>
          rw [hovf] at hok
          cases b with
          | true => dsimp only [] at hok; cases hok
          | false =>
          dsimp only [] at hok
          cases hok
          have hf : ∀ t0 : Task,
              ((if t0.id == tid then { t0 with status := TaskStatus.PLANNED } else t0).id
                  = t0.id
                ∧ (if t0.id == tid then { t0 with status := TaskStatus.PLANNED }
                   else t0).created_by_sub = t0.created_by_sub) := by
            intro t0; by_cases h : t0.id = tid <;> simp [h]
          by_cases hcnt : (countSessionsForTask st tid == 0) = true
          · rw [if_pos hcnt]
            constructor
            · intro t0 ht0
              rcases List.mem_map.mp ht0 with ⟨t1, ht1, rfl⟩
              exact lt_of_eq_of_lt (hf t1).1 (hinv.taskIdsBound t1 ht1)
            · rw [List.pairwise_map]
              refine hinv.taskIdsNodup.imp ?_
              intro a b hab
              rw [(hf a).1, (hf b).1]
              exact hab
            · intro s0 hs0
              rcases List.mem_append.mp hs0 with h | h
              · exact Nat.lt_succ_of_lt (hinv.sessionIdsBound s0 h)
              · rcases List.mem_singleton.mp h with rfl
                rw [newSessionRow_id]
                exact Nat.lt_succ_self _
            · refine List.pairwise_append.mpr
                ⟨hinv.sessionIdsNodup, List.pairwise_singleton _ _, ?_⟩
              intro a ha b hb
              rcases List.mem_singleton.mp hb with rfl
              rw [newSessionRow_id]
              exact Nat.ne_of_lt (hinv.sessionIdsBound a ha)
            · intro s0 hs0
              rcases List.mem_append.mp hs0 with h | h
              · rcases hinv.foreignKey s0 h with ⟨t1, ht1, hid⟩
                exact ⟨_, List.mem_map_of_mem _ ht1, (hf t1).1.trans hid⟩
              · rcases List.mem_singleton.mp h with rfl
                refine ⟨_, List.mem_map_of_mem _ htask, ?_⟩
                rw [(hf task).1, newSessionRow_task_id]
                exact htid
            · intro s1 h1 s2 h2 hne sub' o1 o2
              exact noOverlap_insert hinv htask htid hownb hovf h1 h2 hne
                ((ownerIsIn_map_iff (fun t _ => hf t) _ _).mp o1)
                ((ownerIsIn_map_iff (fun t _ => hf t) _ _).mp o2)
          · rw [if_neg hcnt]
            constructor
            · exact hinv.taskIdsBound
            · exact hinv.taskIdsNodup
            · intro s0 hs0
              rcases List.mem_append.mp hs0 with h | h
              · exact Nat.lt_succ_of_lt (hinv.sessionIdsBound s0 h)
              · rcases List.mem_singleton.mp h with rfl
                rw [newSessionRow_id]
                exact Nat.lt_succ_self _
            · refine List.pairwise_append.mpr
                ⟨hinv.sessionIdsNodup, List.pairwise_singleton _ _, ?_⟩
              intro a ha b hb
              rcases List.mem_singleton.mp hb with rfl
              rw [newSessionRow_id]
              exact Nat.ne_of_lt (hinv.sessionIdsBound a ha)
            · intro s0 hs0
              rcases List.mem_append.mp hs0 with h | h
              · exact hinv.foreignKey s0 h
              · rcases List.mem_singleton.mp h with rfl
                exact ⟨task, htask, htid⟩
            · intro s1 h1 s2 h2 hne sub' o1 o2
              exact noOverlap_insert hinv htask htid hownb hovf h1 h2 hne o1 o2

/-- Core of the update-session invariant: the in-place rewrite of one fetched
session preserves the store invariant, provided that whenever a time field
was supplied the overlap check (excluding this session) came back ok false. -/
theorem inv_writeSession {st : Store} (hinv : StoreInv st) {ts : TaskSession}
    {p : SessionUpdate} {sub : UserSub}
    (hts : ts ∈ st.sessions) (hown : ownerIs st ts.task_id sub)
    (hsafe : timesSupplied p = true →
      _sessions_overlap st sub (mergedStart ts p) (mergedEnd ts p)
        (some ts.id) = .ok false) :
    StoreInv { st with
      sessions := st.sessions.map fun s =>
        if s.id == ts.id then applySessionUpdate ts p else s } := by
  have hg : ∀ s0 ∈ st.sessions,
      ((if s0.id == ts.id then applySessionUpdate ts p else s0).id = s0.id
        ∧ (if s0.id == ts.id then applySessionUpdate ts p else s0).task_id
            = s0.task_id) := by
    intro s0 hs0
    by_cases h : s0.id = ts.id
    · have heq : s0 = ts :=
        eq_of_pairwise_key (fun x => x.id) hinv.sessionIdsNodup hs0 hts h
      subst heq
      simp [applySessionUpdate_id, applySessionUpdate_task_id]
    · simp [h]
  constructor
  · exact hinv.taskIdsBound
  · exact hinv.taskIdsNodup
  · intro s0 hs0
    rcases List.mem_map.mp hs0 with ⟨s1, hs1, rfl⟩
    exact lt_of_eq_of_lt (hg s1 hs1).1 (hinv.sessionIdsBound s1 hs1)
  · rw [List.pairwise_map]
    refine hinv.sessionIdsNodup.imp_of_mem ?_
    intro a b ha hb hab
    rw [(hg a ha).1, (hg b hb).1]
    exact hab
  · intro s0 hs0
    rcases List.mem_map.mp hs0 with ⟨s1, hs1, rfl⟩
    rcases hinv.foreignKey s1 hs1 with ⟨t1, ht1, hid⟩
    exact ⟨t1, ht1, hid.trans (hg s1 hs1).2.symm⟩
  · intro s1 h1 s2 h2 hne sub' o1 o2
    have hsub' : ∀ {s0 : TaskSession}, s0 = applySessionUpdate ts p →
        ownerIsIn st.tasks s0.task_id sub' → sub' = sub := by
      rintro s0 rfl o0
      rw [applySessionUpdate_task_id] at o0
      rcases o0 with ⟨t1, ht1, hid1, hs1⟩
      rcases hown with ⟨t2, ht2, hid2, hs2⟩
      have heq : t1 = t2 :=
        eq_of_pairwise_key (fun x => x.id) hinv.taskIdsNodup ht1 ht2
          (hid1.trans hid2.symm)
      subst heq
      exact hs1.symm.trans hs2
    rcases mem_map_replace hinv.sessionIdsNodup hts h1 with hu1 | ⟨h1m, h1ne⟩ <;>
      rcases mem_map_replace hinv.sessionIdsNodup hts h2 with hu2 | ⟨h2m, h2ne⟩
    · exfalso
      rw [hu1, hu2] at hne
      exact hne rfl
    · -- s1 is the rewritten session, s2 untouched
      have hq := hsub' hu1 o1
      rw [hq] at o1 o2
      cases hT : timesSupplied p with
      | true =>
        have hfact := not_overlap_of_check_false (hsafe hT) s2 h2m o2
          (fun ex hex => by cases hex; exact h2ne)
        subst hu1
        intro hcon
        rw [(applySessionUpdate_times_supplied hT).1,
          (applySessionUpdate_times_supplied hT).2] at hcon
        exact hfact ⟨hcon.2, hcon.1⟩
      | false =>
        subst hu1
        intro hcon
        rw [(applySessionUpdate_times_not_supplied hT).1,
          (applySessionUpdate_times_not_supplied hT).2] at hcon
        have o1' : ownerIsIn st.tasks ts.task_id sub := by
          rw [applySessionUpdate_task_id] at o1
          exact o1
        exact hinv.noOverlap ts hts s2 h2m (Ne.symm h2ne) sub o1' o2 hcon
    · -- s2 is the rewritten session, s1 untouched
      have hq := hsub' hu2 o2
      rw [hq] at o1 o2
      cases hT : timesSupplied p with
      | true =>
        have hfact := not_overlap_of_check_false (hsafe hT) s1 h1m o1
          (fun ex hex => by cases hex; exact h1ne)
        subst hu2
        intro hcon
        rw [(applySessionUpdate_times_supplied hT).1,
          (applySessionUpdate_times_supplied hT).2] at hcon
        exact hfact hcon
      | false =>
        subst hu2
        intro hcon
        rw [(applySessionUpdate_times_not_supplied hT).1,
          (applySessionUpdate_times_not_supplied hT).2] at hcon
        have o2' : ownerIsIn st.tasks ts.task_id sub := by
          rw [applySessionUpdate_task_id] at o2
          exact o2
        exact hinv.noOverlap s1 h1m ts hts h1ne sub o1 o2' hcon
    · exact hinv.noOverlap s1 h1m s2 h2m hne sub' o1 o2

/-- Updating a session preserves the store invariant. -/
theorem inv_updateSession {st st' : Store} {tid sid : Nat} {sub : UserSub}
    {ts s' : TaskSession} {p : SessionUpdate}
    (hinv : StoreInv st) (hget : get_session_for_user st tid sid sub = some ts)
    (hok : update_session_for_user st ts p sub = .ok (st', s')) : StoreInv st' := by
  obtain ⟨hts, hsid, htsid, hown⟩ := get_session_for_user_mem hget
  unfold update_session_for_user at hok
  by_cases hT : timesSupplied p = true
  · rw [if_pos hT] at hok
    by_cases hle : mergedEnd ts p ≤ mergedStart ts p
    · rw [if_pos hle] at hok; cases hok
    · rw [if_neg hle] at hok
      cases hov : _sessions_overlap st sub (mergedStart ts p) (mergedEnd ts p)
          (some ts.id) with
      | error e => rw [hov] at hok; cases hok
      | ok b =>
        rw [hov] at hok
        cases b with
        | true => dsimp only [] at hok; cases hok
        | false =>
          dsimp only [] at hok
          cases hok
          exact inv_writeSession hinv hts hown fun _ => hov
  · rw [if_neg hT] at hok
    cases hok
    exact inv_writeSession hinv hts hown fun h => absurd h hT

/-- Every reachable store satisfies the invariant. -/
theorem reachable_inv {st : Store} (h : Reachable st) : StoreInv st := by
  induction h with
  | empty => exact inv_empty
  | createTask hr hok ih => exact inv_createTask ih hok
  | updateTask hr hget hok ih => exact inv_updateTask ih hget hok
  | deleteTask hr hget ih => exact inv_deleteTask ih _
  | createSession hr hok ih => exact inv_createSession ih hok
  | updateSession hr hget hok ih => exact inv_updateSession ih hget hok
  | deleteSession hr hget ih => exact inv_deleteSession ih _

instance (tasks : List Task) (taskId : Nat) (sub : UserSub) :
    Decidable (ownerIsIn tasks taskId sub) := by
  unfold ownerIsIn; infer_instance

instance (store : Store) (taskId : Nat) (sub : UserSub) :
    Decidable (ownerIs store taskId sub) := by
  unfold ownerIs; infer_instance

/-- The success shape of create_session_for_task: every field of the result,
and the checks that must have passed. -/
theorem create_session_ok_shape {store : Store} {tid : Nat} {sub : UserSub}
    {p : SessionCreate} {st' : Store} {s' : TaskSession}
    (hok : create_session_for_task store tid sub p = .ok (st', s')) :
    ∃ task start_at end_at,
      store.tasks.find? (fun t => t.id == tid) = some task
      ∧ task.created_by_sub = sub
      ∧ _normalize_create_times p = .ok (start_at, end_at)
      ∧ _sessions_overlap store sub start_at end_at none = .ok false
      ∧ s' = newSessionRow store tid start_at end_at
      ∧ st' = { store with
                tasks :=
                  if countSessionsForTask store tid == 0 then
                    store.tasks.map fun t =>
                      if t.id == tid then { t with status := TaskStatus.PLANNED } else t
                  else store.tasks
                sessions := store.sessions ++ [newSessionRow store tid start_at end_at]
                nextSessionId := store.nextSessionId + 1 } := by
  unfold create_session_for_task at hok
  cases hfind : store.tasks.find? (fun t => t.id == tid) with
  | none => rw [hfind] at hok; cases hok
  | some task =>
    rw [hfind] at hok
    dsimp only [] at hok
    by_cases hownb : task.created_by_sub ≠ sub
    · rw [if_pos hownb] at hok; cases hok
    · rw [if_neg hownb] at hok
      push_neg at hownb
      cases hnorm : _normalize_create_times p with
      | error e => rw [hnorm] at hok; cases hok
      | ok se =>
        obtain ⟨start_at, end_at⟩ := se
        rw [hnorm] at hok
        dsimp only [] at hok
        cases hov : _sessions_overlap store sub start_at end_at none with
        | error e => rw [hov] at hok; cases hok
        | ok b =>
          rw [hov] at hok
          cases b with
          | true => dsimp only [] at hok; cases hok
          | false =>
            dsimp only [] at hok
            cases hok
            exact ⟨task, start_at, end_at, rfl, hownb, rfl, hov, rfl, rfl⟩

/-! Concrete scenario used by the closed witnesses: owner "u1" creates task 1,
then sessions [36000, 39600] and the touching [39600, 43200]. -/

/-- Valid create payload for the witness task. -/
def wTaskPayload : TaskCreate :=
  { title := "T1", description := none, status := .BACKLOG, due_at := 0,
    planned_start_at := none, planned_end_at := none, planned_duration := none }

/-- The witness task as first persisted. -/
def wTask1 : Task :=
  { id := 1, title := "T1", description := none, status := .BACKLOG,
    due_at := some 0, planned_start_at := none, planned_end_at := none,
    planned_duration := none, created_by_sub := "u1" }

/-- The witness task after its first session set it to PLANNED. -/
def wTask1P : Task := { wTask1 with status := .PLANNED }

/-- Store after creating the witness task. -/
def wStore1 : Store :=
  { tasks := [wTask1], sessions := [], nextTaskId := 2, nextSessionId := 1 }

/-- Payload of the first witness session. -/
def wPay1 : SessionCreate :=
  { scheduled_start_at := 36000, scheduled_end_at := some 39600, duration_minutes := none }

/-- Payload of the second (touching) witness session. -/
def wPay2 : SessionCreate :=
  { scheduled_start_at := 39600, scheduled_end_at := some 43200, duration_minutes := none }

/-- First witness session row. -/
def wSess1 : TaskSession :=
  { id := 1, task_id := 1, scheduled_start_at := 36000, scheduled_end_at := 39600,
    status := .INCOMPLETE }

/-- Second witness session row (touches the first at 39600). -/
def wSess2 : TaskSession :=
  { id := 2, task_id := 1, scheduled_start_at := 39600, scheduled_end_at := 43200,
    status := .INCOMPLETE }

/-- Store after the first session. -/
def wStore2 : Store :=
  { tasks := [wTask1P], sessions := [wSess1], nextTaskId := 2, nextSessionId := 2 }

/-- Store after the second session. -/
def wStore3 : Store :=
  { tasks := [wTask1P], sessions := [wSess1, wSess2], nextTaskId := 2, nextSessionId := 3 }

/-- Creating the witness task succeeds. -/
theorem wCreateTask :
    create_task_for_user emptyStore "u1" wTaskPayload = .ok (wStore1, wTask1) := rfl

/-- Creating the first witness session succeeds and sets PLANNED. -/
theorem wCreateS1 :
    create_session_for_task wStore1 1 "u1" wPay1 = .ok (wStore2, wSess1) := rfl

/-- Creating the touching second witness session succeeds. -/
theorem wCreateS2 :
    create_session_for_task wStore2 1 "u1" wPay2 = .ok (wStore3, wSess2) := rfl

/-- The final witness store is reachable. -/
theorem wReach3 : Reachable wStore3 :=
  .createSession (.createSession (.createTask .empty wCreateTask) wCreateS1) wCreateS2

/-- C1: for every reachable store state and every pair of distinct sessions
whose tasks belong to the same owner, NOT (S1.scheduled_start_at <
S2.scheduled_end_at AND S1.scheduled_end_at > S2.scheduled_start_at) holds —
no two sessions of one owner strictly overlap after any successful create or
update (reachability covers every sequence of service operations, so in
particular every state just after a successful session create or update). -/
theorem C1_no_owner_sessions_overlap (store : Store) (hr : Reachable store)
    (s1 s2 : TaskSession) (h1 : s1 ∈ store.sessions) (h2 : s2 ∈ store.sessions)
    (hne : s1 ≠ s2) (sub : UserSub)
    (o1 : ownerIs store s1.task_id sub) (o2 : ownerIs store s2.task_id sub) :
    ¬ (s1.scheduled_start_at < s2.scheduled_end_at
        ∧ s1.scheduled_end_at > s2.scheduled_start_at) := by
  have hinv := reachable_inv hr
  have hid : s1.id ≠ s2.id := fun h =>
    hne (eq_of_pairwise_key (fun x => x.id) hinv.sessionIdsNodup h1 h2 h)
  exact hinv.noOverlap s1 h1 s2 h2 hid sub o1 o2

/-- C1 witness: the reachable two-session store for owner "u1" instantiates
the invariant at its two (touching, non-overlapping) sessions. -/
theorem C1_witness :
    ¬ (wSess1.scheduled_start_at < wSess2.scheduled_end_at
        ∧ wSess1.scheduled_end_at > wSess2.scheduled_start_at) :=
  C1_no_owner_sessions_overlap wStore3 wReach3 wSess1 wSess2 (by decide) (by decide)
    (by decide) "u1" (by decide) (by decide)

/-- C2 counterexample: in the reachable witness store, owner u1 has sessions
[36000, 39600] and [39600, 43200]; the candidate [35000, 45000] strictly
overlaps both (the claim's existential holds), yet the checker does not
return true — scalar_one_or_none() raises sqlalchemy MultipleResultsFound on
the two matching rows. -/
theorem C2_counterexample :
    (∃ s ∈ wStore3.sessions, ownerIs wStore3 s.task_id "u1"
      ∧ s.scheduled_start_at < 45000 ∧ s.scheduled_end_at > 35000)
    ∧ (overlapRows wStore3 "u1" 35000 45000 none).length = 2
    ∧ _sessions_overlap wStore3 "u1" 35000 45000 none
        = .error .multipleResultsFound :=
  ⟨by decide, rfl, rfl⟩

/-- C2 amended: the overlap checker's query matches exactly the sessions other
than the excluded one, owned transitively via their task by the owner (across
all of the owner's tasks), satisfying existing.start < candidate.end AND
existing.end > candidate.start; the checker returns false when no session
matches, true when exactly one does, and raises sqlalchemy
MultipleResultsFound (uncaught by the routers) when two or more do — so a
session with existing.end = candidate.start (touching endpoint) never counts
as a match. -/
theorem C2_amended_checker_behaviour (store : Store) (sub : UserSub)
    (start_at end_at : DateTime) (excl : Option Nat) :
    (∀ s, s ∈ overlapRows store sub start_at end_at excl ↔
      (s ∈ store.sessions ∧ (∀ ex, excl = some ex → s.id ≠ ex)
        ∧ ownerIs store s.task_id sub
        ∧ s.scheduled_start_at < end_at ∧ s.scheduled_end_at > start_at))
    ∧ (_sessions_overlap store sub start_at end_at excl = .ok false ↔
        overlapRows store sub start_at end_at excl = [])
    ∧ (_sessions_overlap store sub start_at end_at excl = .ok true ↔
        (overlapRows store sub start_at end_at excl).length = 1)
    ∧ (_sessions_overlap store sub start_at end_at excl
          = .error .multipleResultsFound ↔
        2 ≤ (overlapRows store sub start_at end_at excl).length)
    ∧ ((∀ s ∈ store.sessions, ownerIs store s.task_id sub →
          s.scheduled_end_at = start_at) →
        _sessions_overlap store sub start_at end_at excl = .ok false) := by
  refine ⟨overlapRows_mem_iff store sub start_at end_at excl, ?_, ?_, ?_, ?_⟩
  · unfold _sessions_overlap
    rcases overlapRows store sub start_at end_at excl with _ | ⟨a, _ | ⟨b, l⟩⟩ <;> simp
  · unfold _sessions_overlap
    rcases overlapRows store sub start_at end_at excl with _ | ⟨a, _ | ⟨b, l⟩⟩ <;> simp
  · unfold _sessions_overlap
    rcases overlapRows store sub start_at end_at excl with _ | ⟨a, _ | ⟨b, l⟩⟩ <;> simp
  · intro htouch
    have hnil : overlapRows store sub start_at end_at excl = [] := by
      rcases hr : overlapRows store sub start_at end_at excl with _ | ⟨a, l⟩
      · rfl
      · exfalso
        have ha : a ∈ overlapRows store sub start_at end_at excl := by
          rw [hr]; exact List.mem_cons_self a l
        rcases (overlapRows_mem_iff store sub start_at end_at excl a).mp ha
          with ⟨hs, _, hown, _, hgt⟩
        rw [htouch a hs hown] at hgt
        exact lt_irrefl start_at hgt
    unfold _sessions_overlap
    rw [hnil]

/-- C2 witness: in the one-session witness store every session of u1 ends at
39600, so a candidate starting there matches nothing and the checker returns
false. -/
theorem C2_witness :
    _sessions_overlap wStore2 "u1" 39600 43200 none = .ok false :=
  (C2_amended_checker_behaviour wStore2 "u1" 39600 43200 none).2.2.2.2 (by decide)

/-- C6: a successful session create on a task with zero existing sessions
(count checked before the insert) sets that task's status to PLANNED (in the
claim's scenario, from BACKLOG); on a task that already has sessions it leaves
every task row unchanged, and each create raises the session count by one, so
the second create for the same task cannot change status again. -/
theorem C6_first_session_status (store : Store) (tid : Nat) (sub : UserSub)
    (p : SessionCreate) (st' : Store) (s' : TaskSession)
    (hok : create_session_for_task store tid sub p = .ok (st', s')) :
    (countSessionsForTask store tid = 0 →
      st'.tasks = store.tasks.map fun t =>
        if t.id == tid then { t with status := TaskStatus.PLANNED } else t)
    ∧ (countSessionsForTask store tid ≠ 0 → st'.tasks = store.tasks)
    ∧ countSessionsForTask st' tid = countSessionsForTask store tid + 1 := by
  rcases create_session_ok_shape hok with ⟨task, a, b, hfind, hsub, hnorm, hov, hs', hst'⟩
  subst hst'
  refine ⟨?_, ?_, ?_⟩
  · intro h0
    dsimp only []
    rw [if_pos (by simp [h0])]
  · intro hne
    dsimp only []
    rw [if_neg (by simpa using hne)]
  · simp [countSessionsForTask, List.filter_append, newSessionRow]

/-- C6 witness: the first witness session rewrites task 1 to PLANNED, the
second (touching) one leaves the tasks table untouched. -/
theorem C6_witness :
    wStore2.tasks = (wStore1.tasks.map fun t =>
      if t.id == 1 then { t with status := TaskStatus.PLANNED } else t)
    ∧ wStore3.tasks = wStore2.tasks :=
  ⟨(C6_first_session_status wStore1 1 "u1" wPay1 wStore2 wSess1 wCreateS1).1 (by decide),
   (C6_first_session_status wStore2 1 "u1" wPay2 wStore3 wSess2 wCreateS2).2.1 (by decide)⟩

/-- C8: a session-create against a missing task or a task owned by someone
else fails with the same LookupError "task not found" (indistinguishable to
the caller), and on success the persisted session has status INCOMPLETE. -/
theorem C8_create_session_errors (store : Store) (tid : Nat) (sub : UserSub)
    (p : SessionCreate) :
    ((store.tasks.find? (fun t => t.id == tid) = none
        ∨ ∃ task, store.tasks.find? (fun t => t.id == tid) = some task
            ∧ task.created_by_sub ≠ sub) →
      create_session_for_task store tid sub p = .error (.lookupError "task not found"))
    ∧ (∀ st' s', create_session_for_task store tid sub p = .ok (st', s') →
        s'.status = TaskSessionStatus.INCOMPLETE) := by
  constructor
  · rintro (hnone | ⟨task, hfind, hne⟩)
    · unfold create_session_for_task
      rw [hnone]
    · unfold create_session_for_task
      rw [hfind]
      dsimp only []
      rw [if_pos hne]
  · intro st' s' hok
    rcases create_session_ok_shape hok with ⟨task, a, b, _, _, _, _, hs', _⟩
    subst hs'
    rfl

/-- C8 witness: creating on the empty store is NotFound; the first witness
session was persisted INCOMPLETE. -/
theorem C8_witness :
    create_session_for_task emptyStore 1 "u1" wPay1
        = .error (.lookupError "task not found")
    ∧ wSess1.status = TaskSessionStatus.INCOMPLETE :=
  ⟨(C8_create_session_errors emptyStore 1 "u1" wPay1).1 (Or.inl rfl),
   (C8_create_session_errors wStore1 1 "u1" wPay1).2 wStore2 wSess1 wCreateS1⟩

/-- C10: a successful session create on a task with zero existing sessions
sets the task's status to PLANNED unconditionally — whatever the current
status (BACKLOG, COMPLETED or REMOVED alike). -/
theorem C10_first_session_planned_any_status (store : Store) (tid : Nat)
    (sub : UserSub) (p : SessionCreate) (st' : Store) (s' : TaskSession)
    (hok : create_session_for_task store tid sub p = .ok (st', s'))
    (h0 : countSessionsForTask store tid = 0)
    (t : Task) (ht : t ∈ store.tasks) (hid : t.id = tid) :
    { t with status := TaskStatus.PLANNED } ∈ st'.tasks := by
  rcases create_session_ok_shape hok with ⟨task, a, b, hfind, hsub, hnorm, hov, hs', hst'⟩
  subst hst'
  dsimp only []
  rw [if_pos (by simp [h0])]
  refine List.mem_map.mpr ⟨t, ht, ?_⟩
  simp [hid]

/-- A COMPLETED task with no sessions, for the C10 witness. -/
def c10Task : Task :=
  { id := 1, title := "done", description := none, status := .COMPLETED,
    due_at := some 0, planned_start_at := none, planned_end_at := none,
    planned_duration := none, created_by_sub := "u1" }

/-- Store holding only the COMPLETED witness task. -/
def c10Store : Store :=
  { tasks := [c10Task], sessions := [], nextTaskId := 2, nextSessionId := 1 }

/-- Store after creating a session on the COMPLETED task. -/
def c10StoreAfter : Store :=
  { tasks := [{ c10Task with status := .PLANNED }], sessions := [wSess1],
    nextTaskId := 2, nextSessionId := 2 }

/-- C10 witness: a session created on a COMPLETED, session-less task flips it
to PLANNED. -/
theorem C10_witness :
    { c10Task with status := TaskStatus.PLANNED } ∈ c10StoreAfter.tasks :=
  C10_first_session_planned_any_status c10Store 1 "u1" wPay1 c10StoreAfter wSess1
    rfl (by decide) c10Task (by decide) rfl

/-- The store a PATCH request leaves behind: the updated store on success, the
original store when the service raised (the pending transaction aborts). -/
def runUpdateSession (store : Store) (ts : TaskSession) (p : SessionUpdate)
    (sub : UserSub) : Store :=
  match update_session_for_user store ts p sub with
  | .ok (st', _) => st'
  | .error _ => store

/-- A third witness session, away from the others, for the C5 counterexample. -/
def c5Sess3 : TaskSession :=
  { id := 3, task_id := 1, scheduled_start_at := 50000, scheduled_end_at := 53600,
    status := .INCOMPLETE }

/-- Store with three sessions of owner u1. -/
def c5Store : Store :=
  { tasks := [wTask1P], sessions := [wSess1, wSess2, c5Sess3], nextTaskId := 2,
    nextSessionId := 4 }

/-- Update stretching session 3 over both other sessions. -/
def c5PayWide : SessionUpdate :=
  { status := none, scheduled_start_at := some 35000, scheduled_end_at := some 45000 }

/-- C5 counterexample: moving session 3 to [35000, 45000] overlaps the two
other sessions of the owner, and the update does not surface the conflict
ValueError — scalar_one_or_none() raises sqlalchemy MultipleResultsFound on
the two matching rows, which the routers do not catch. -/
theorem C5_counterexample :
    timesSupplied c5PayWide = true
    ∧ (overlapRows c5Store "u1" (mergedStart c5Sess3 c5PayWide)
        (mergedEnd c5Sess3 c5PayWide) (some c5Sess3.id)).length = 2
    ∧ update_session_for_user c5Store c5Sess3 c5PayWide "u1"
        = .error .multipleResultsFound
    ∧ ServiceError.multipleResultsFound
        ≠ .valueError "session overlaps another scheduled session" :=
  ⟨rfl, rfl, rfl, by decide⟩

/-- C5 amended: a session update supplying a time field merges the pair
(unsupplied field keeps its prior value), rejects end ≤ start as a validation
error, rejects with the spec's ConflictError when the overlap check (excluding
this session's own id) matches exactly one other session, fails with the
uncaught sqlalchemy MultipleResultsFound when it matches two or more, writes
the merged pair on success, and every failure leaves the store entirely
unchanged. -/
theorem C5_amended_update_checks (store : Store) (ts : TaskSession)
    (p : SessionUpdate) (sub : UserSub) (hsup : timesSupplied p = true) :
    (mergedEnd ts p ≤ mergedStart ts p →
      update_session_for_user store ts p sub
        = .error (.valueError "scheduled_end_at must be after scheduled_start_at"))
    ∧ (mergedStart ts p < mergedEnd ts p →
        _sessions_overlap store sub (mergedStart ts p) (mergedEnd ts p)
            (some ts.id) = .ok true →
        update_session_for_user store ts p sub
            = .error (.valueError "session overlaps another scheduled session")
          ∧ ServiceError.isConflict
              (.valueError "session overlaps another scheduled session"))
    ∧ (mergedStart ts p < mergedEnd ts p →
        _sessions_overlap store sub (mergedStart ts p) (mergedEnd ts p)
            (some ts.id) = .error .multipleResultsFound →
        update_session_for_user store ts p sub = .error .multipleResultsFound)
    ∧ (mergedStart ts p < mergedEnd ts p →
        _sessions_overlap store sub (mergedStart ts p) (mergedEnd ts p)
            (some ts.id) = .ok false →
        ∃ st', update_session_for_user store ts p sub
              = .ok (st', applySessionUpdate ts p)
          ∧ (applySessionUpdate ts p).scheduled_start_at = mergedStart ts p
          ∧ (applySessionUpdate ts p).scheduled_end_at = mergedEnd ts p)
    ∧ (∀ e, update_session_for_user store ts p sub = .error e →
        runUpdateSession store ts p sub = store) := by
  refine ⟨?_, ?_, ?_, ?_, ?_⟩
  · intro hle
    unfold update_session_for_user
    rw [if_pos hsup, if_pos hle]
  · intro hlt hov
    refine ⟨?_, rfl⟩
    unfold update_session_for_user
    rw [if_pos hsup, if_neg (not_le.mpr hlt), hov]
  · intro hlt hov
    unfold update_session_for_user
    rw [if_pos hsup, if_neg (not_le.mpr hlt), hov]
  · intro hlt hov
    unfold update_session_for_user
    rw [if_pos hsup, if_neg (not_le.mpr hlt), hov]
    exact ⟨_, rfl, (applySessionUpdate_times_supplied hsup).1,
      (applySessionUpdate_times_supplied hsup).2⟩
  · intro e he
    unfold runUpdateSession
    rw [he]

/-- Payload moving the second witness session on top of the first. -/
def wPayMove : SessionUpdate :=
  { status := none, scheduled_start_at := some 37000, scheduled_end_at := some 38000 }

/-- C5 witness: moving session 2 into [37000, 38000] matches exactly session 1
and is rejected with the overlap ValueError (the spec's ConflictError). -/
theorem C5_witness :
    update_session_for_user wStore3 wSess2 wPayMove "u1"
      = .error (.valueError "session overlaps another scheduled session") :=
  ((C5_amended_update_checks wStore3 wSess2 wPayMove "u1" rfl).2.1
    (by decide) rfl).1

/-- C7: list_sessions_in_range returns exactly the owner's sessions (joined
through their task, across all of the owner's tasks) with scheduled_start_at
< D2 and scheduled_end_at > D1, each paired with its task's title, sorted
ascending by scheduled_start_at. -/
theorem C7_list_sessions_in_range_spec (store : Store) (sub : UserSub)
    (d1 d2 : DateTime) :
    (∀ s title, (s, title) ∈ list_sessions_in_range store sub d1 d2 ↔
      (s ∈ store.sessions ∧ s.scheduled_start_at < d2 ∧ s.scheduled_end_at > d1
        ∧ ∃ t, store.tasks.find? (fun t0 => t0.id == s.task_id) = some t
            ∧ t.created_by_sub = sub ∧ title = t.title))
    ∧ (list_sessions_in_range store sub d1 d2).Pairwise
        (fun a b => a.1.scheduled_start_at ≤ b.1.scheduled_start_at) := by
  constructor
  · intro s title
    unfold list_sessions_in_range sessionRangeRows
    rw [List.mem_mergeSort, List.mem_filterMap]
    constructor
    · rintro ⟨s0, hs0, hf⟩
      cases hfind : store.tasks.find? (fun t0 => t0.id == s0.task_id) with
      | none => rw [hfind] at hf; cases hf
      | some t =>
        rw [hfind] at hf
        dsimp only [] at hf
        by_cases hc : t.created_by_sub = sub
            ∧ s0.scheduled_start_at < d2 ∧ s0.scheduled_end_at > d1
        · rw [if_pos hc] at hf
          injection hf with hf'
          rw [Prod.mk.injEq] at hf'
          obtain ⟨rfl, rfl⟩ := hf'
          exact ⟨hs0, hc.2.1, hc.2.2, t, hfind, hc.1, rfl⟩
        · rw [if_neg hc] at hf; cases hf
    · rintro ⟨hs, hlt, hgt, t, hfind, hsubt, rfl⟩
      refine ⟨s, hs, ?_⟩
      rw [hfind]
      dsimp only []
      rw [if_pos ⟨hsubt, hlt, hgt⟩]
  · refine List.Pairwise.imp ?_ (List.sorted_mergeSort ?_ ?_ _)
    · intro a b h
      simpa using h
    · intro a b c hab hbc
      simp only [decide_eq_true_eq] at hab hbc ⊢
      exact le_trans hab hbc
    · intro a b
      simp only [Bool.or_eq_true, decide_eq_true_eq]
      exact le_total _ _

/-- C7 witness: in the witness store the first session appears in a window
covering it, titled with its task's title. -/
theorem C7_witness :
    (wSess1, "T1") ∈ list_sessions_in_range wStore3 "u1" 0 100000 :=
  ((C7_list_sessions_in_range_spec wStore3 "u1" 0 100000).1 wSess1 "T1").mpr
    ⟨by decide, by decide, by decide, wTask1P, rfl, rfl, rfl⟩

/-- Duration coercion when both planned timestamps are present and no duration
is supplied. -/
theorem coerce_both_none (s e : DateTime) :
    _coerce_planned_duration (some s) (some e) none
      = .ok (some (pyTruncDiv60 (e - s))) := rfl

/-- Duration coercion rejects a supplied duration differing from the computed
minutes. -/
theorem coerce_both_some_ne (s e : DateTime) (d : Int)
    (h : d ≠ pyTruncDiv60 (e - s)) :
    _coerce_planned_duration (some s) (some e) (some d)
      = .error (.valueError
        "planned_duration must equal the difference between planned_start_at and planned_end_at") := by
  unfold _coerce_planned_duration
  dsimp only []
  rw [if_pos h]

/-- Duration coercion accepts a supplied duration equal to the computed
minutes. -/
theorem coerce_both_some_eq (s e : DateTime) (d : Int)
    (h : d = pyTruncDiv60 (e - s)) :
    _coerce_planned_duration (some s) (some e) (some d) = .ok (some d) := by
  unfold _coerce_planned_duration
  dsimp only []
  rw [if_neg (by simp [h])]

/-- C3 counterexample: for planned_start_at = 0 s and planned_end_at = 5440 s
(90 minutes 40 seconds) the code stores int(5440 / 60) = 90 minutes while the
claim's round(5440 / 60) is 91, so the claimed rounding is wrong. -/
theorem C3_counterexample :
    _coerce_planned_duration (some 0) (some 5440) none = .ok (some 90)
      ∧ specRoundDiv60 (5440 - 0) = 91 ∧ (90 : Int) ≠ 91 :=
  ⟨rfl, by decide, by decide⟩

/-- C3 amended: with both planned timestamps set, the service computes
minutes = int((planned_end_at - planned_start_at) / 1 minute) — truncation
toward zero, not round(...) — then an omitted planned_duration becomes
minutes, a differing one fails with the validation error, and a matching one
is stored as supplied. -/
theorem C3_amended_minutes_truncated (store : Store) (sub : UserSub)
    (p : TaskCreate) (ps pe : DateTime)
    (hs : p.planned_start_at = some ps) (he : p.planned_end_at = some pe) :
    (p.planned_duration = none →
      ∃ st' t, create_task_for_user store sub p = .ok (st', t)
        ∧ t.planned_duration = some (pyTruncDiv60 (pe - ps)))
    ∧ (∀ d, p.planned_duration = some d → d ≠ pyTruncDiv60 (pe - ps) →
        create_task_for_user store sub p = .error (.valueError
          "planned_duration must equal the difference between planned_start_at and planned_end_at"))
    ∧ (∀ d, p.planned_duration = some d → d = pyTruncDiv60 (pe - ps) →
        ∃ st' t, create_task_for_user store sub p = .ok (st', t)
          ∧ t.planned_duration = some d) := by
  refine ⟨?_, ?_, ?_⟩
  · intro h0
    unfold create_task_for_user
    rw [hs, he, h0, coerce_both_none]
    exact ⟨_, _, rfl, rfl⟩
  · intro d hd hne
    unfold create_task_for_user
    rw [hs, he, hd, coerce_both_some_ne _ _ _ hne]
  · intro d hd heq
    unfold create_task_for_user
    rw [hs, he, hd, coerce_both_some_eq _ _ _ heq]
    exact ⟨_, _, rfl, rfl⟩

/-- Create payload with a 90-minute plan and no duration. -/
def c3Payload : TaskCreate :=
  { title := "planned", description := none, status := .BACKLOG, due_at := 0,
    planned_start_at := some 0, planned_end_at := some 5400,
    planned_duration := none }

/-- C3 witness: the claim's own example — start 0, end +90 min, duration
omitted — stores 90. -/
theorem C3_witness :
    ∃ st' t, create_task_for_user emptyStore "u1" c3Payload = .ok (st', t)
      ∧ t.planned_duration = some (pyTruncDiv60 (5400 - 0)) :=
  (C3_amended_minutes_truncated emptyStore "u1" c3Payload 0 5400 rfl rfl).1 rfl

/-- A task stored with a 60-minute plan and matching duration. -/
def c4Task : Task :=
  { id := 1, title := "T", description := none, status := .BACKLOG,
    due_at := some 0, planned_start_at := some 0, planned_end_at := some 3600,
    planned_duration := some 60, created_by_sub := "u1" }

/-- Store holding only c4Task. -/
def c4Store : Store :=
  { tasks := [c4Task], sessions := [], nextTaskId := 2, nextSessionId := 1 }

/-- Update stretching the planned end to +90 min without supplying a
duration. -/
def c4Payload : TaskUpdate :=
  { title := none, description := none, status := none, due_at := none,
    planned_start_at := none, planned_end_at := some 5400,
    planned_duration := none }

/-- C4 counterexample: the payload supplies no planned_duration, the merged
fields are start 0 / end 5400 s, yet the update fails with the duration
validation error (because the previously stored 60 participates in the check)
instead of succeeding with 90 as the claim states. -/
theorem C4_counterexample :
    c4Payload.planned_duration = none
    ∧ (mergeTaskUpdate c4Task c4Payload).planned_start_at = some 0
    ∧ (mergeTaskUpdate c4Task c4Payload).planned_end_at = some 5400
    ∧ update_task_for_user c4Store c4Task c4Payload
        = .error (.valueError
          "planned_duration must equal the difference between planned_start_at and planned_end_at") :=
  ⟨rfl, rfl, rfl, rfl⟩

/-- C4 amended: when the payload does not supply planned_duration and the
merged fields leave both planned timestamps set, the update succeeds with the
computed minutes only if the previously stored planned_duration is NULL; a
stored value differing from the computed minutes fails the update with the
validation error, and a stored value equal to it is kept. -/
theorem C4_amended_update_duration (store : Store) (task : Task) (p : TaskUpdate)
    (hpd : p.planned_duration = none) (ps pe : DateTime)
    (hs : (mergeTaskUpdate task p).planned_start_at = some ps)
    (he : (mergeTaskUpdate task p).planned_end_at = some pe) :
    (task.planned_duration = none →
      ∃ st', update_task_for_user store task p = .ok (st',
        { mergeTaskUpdate task p with
          planned_duration := some (pyTruncDiv60 (pe - ps)) }))
    ∧ (∀ d, task.planned_duration = some d → d ≠ pyTruncDiv60 (pe - ps) →
        update_task_for_user store task p = .error (.valueError
          "planned_duration must equal the difference between planned_start_at and planned_end_at"))
    ∧ (∀ d, task.planned_duration = some d → d = pyTruncDiv60 (pe - ps) →
        ∃ st', update_task_for_user store task p = .ok (st',
          { mergeTaskUpdate task p with planned_duration := some d })) := by
  have hmpd : (mergeTaskUpdate task p).planned_duration = task.planned_duration := by
    simp [mergeTaskUpdate, hpd]
  refine ⟨?_, ?_, ?_⟩
  · intro h0
    unfold update_task_for_user
    rw [hs, he, hmpd, h0, coerce_both_none]
    exact ⟨_, rfl⟩
  · intro d hd hne
    unfold update_task_for_user
    rw [hs, he, hmpd, hd, coerce_both_some_ne _ _ _ hne]
  · intro d hd heq
    unfold update_task_for_user
    rw [hs, he, hmpd, hd, coerce_both_some_eq _ _ _ heq]
    exact ⟨_, rfl⟩

/-- The stored task of the C4 witness: same plan, but no stored duration. -/
def c4bTask : Task := { c4Task with planned_duration := none }

/-- Store holding only c4bTask. -/
def c4bStore : Store :=
  { tasks := [c4bTask], sessions := [], nextTaskId := 2, nextSessionId := 1 }

/-- C4 witness: with no stored duration, the same duration-less update
succeeds and stores the computed minutes. -/
theorem C4_witness :
    ∃ st', update_task_for_user c4bStore c4bTask c4Payload = .ok (st',
      { mergeTaskUpdate c4bTask c4Payload with
        planned_duration := some (pyTruncDiv60 (5400 - 0)) }) :=
  (C4_amended_update_duration c4bStore c4bTask c4Payload rfl 0 5400 rfl rfl).1 rfl

/-- The "Minimal Task" creation body of the repository's own test, with
due_at omitted. -/
def c9Raw : TaskCreateRaw :=
  { title := some "Minimal Task", description := none, status := none,
    due_at := none, planned_start_at := none, planned_end_at := none,
    planned_duration := none }

/-- C9 counterexample: a well-formed create body that merely omits due_at is
rejected by schema validation with a field-required error, so no create
payload omitting the due timestamp can succeed. -/
theorem C9_counterexample :
    c9Raw.due_at = none
      ∧ validateTaskCreate c9Raw = .error ["due_at: Field required"] :=
  ⟨rfl, rfl⟩

/-- C9 amended: the due timestamp is optional in the stored Task model
(nullable column), but the create payload schema requires it: every create
body omitting due_at fails validation with a due_at field-required error. -/
theorem C9_amended_due_required (raw : TaskCreateRaw) (h : raw.due_at = none) :
    ∃ errs, validateTaskCreate raw = .error errs
      ∧ "due_at: Field required" ∈ errs := by
  have hmem : "due_at: Field required" ∈
      (match raw.title with
       | none => ["title: Field required"]
       | some t => if pyStrip t = "" then ["title: title cannot be blank"] else [])
      ++ ["due_at: Field required"]
      ++ (match raw.planned_duration with
          | some d =>
            if d ≤ 0 then ["planned_duration: planned_duration must be positive when provided"]
            else []
          | none => []) := by
    apply List.mem_append_left
    apply List.mem_append_right
    simp
  refine ⟨_, ?_, hmem⟩
  unfold validateTaskCreate
  rw [h]
  rw [if_pos (List.ne_nil_of_mem hmem)]

/-- C9 witness: the concrete omitting body instantiates the amended claim. -/
theorem C9_witness :
    ∃ errs, validateTaskCreate c9Raw = .error errs
      ∧ "due_at: Field required" ∈ errs :=
  C9_amended_due_required c9Raw rfl

end Eigentask
